import Mathlib

/-
Verification of the focus-guard application (search filtering pipeline in
src/components/SearchMock.tsx, relevance-oracle client in the Gemini service
module, and the focus timer component) against its specification.

The embedding is shallow: the JavaScript string primitives used by the code
(toLowerCase, trim, includes, endsWith) are modelled as executable functions
on the character lists underlying Lean strings, and the stateful React
component logic is modelled as explicit state passing together with an event
trace recording the calls the component makes to its collaborators (the
oracle client and the onAddHistory callback of the parent).
-/

namespace FocusGuard

/-- Character-list substring test: true iff pat occurs contiguously in the
second list. This is the semantics of JavaScript String.prototype.includes
(the empty pattern occurs in every string). -/
def containsSeq (pat : List Char) : List Char → Bool
  | [] => pat.isEmpty
  | c :: rest => pat.isPrefixOf (c :: rest) || containsSeq pat rest

/-- Models the JavaScript expression s.includes(pat) on strings. -/
def strIncludes (s pat : String) : Bool := containsSeq pat.data s.data

/-- Models the JavaScript expression s.endsWith(pat) on strings. -/
def strEndsWith (s pat : String) : Bool := pat.data.isSuffixOf s.data

/-- Models the JavaScript expression s.toLowerCase(): lowercase every
character (the URLs and queries handled by the code are ASCII, where
Char.toLower agrees with the JavaScript function). -/
def jsToLowerCase (s : String) : String := ⟨s.data.map Char.toLower⟩

/-- Models the JavaScript expression s.trim(): drop whitespace from both
ends of the string. -/
def jsTrim (s : String) : String :=
  ⟨((s.data.dropWhile Char.isWhitespace).reverse.dropWhile Char.isWhitespace).reverse⟩

/-- Modelled from the spec: the UserRole enum is declared in src/types.ts,
which is not among the sources; the spec fixes its members as
UNSET, RESEARCHER, STUDENT, TEACHER, with UNSET not a valid operating
role. -/
inductive UserRole
  | UNSET
  | RESEARCHER
  | STUDENT
  | TEACHER
deriving DecidableEq, Repr

/-- One raw link record of the oracle response, following the response
schema declared in the Gemini service module: title, url and snippet are
required, thumbnailUrl is optional. -/
structure SuggestedLink where
  title : String
  url : String
  snippet : String
  thumbnailUrl : Option String
deriving DecidableEq, Repr

/-- The parsed oracle reply, following the response schema of the Gemini
service module. The suggestedLinks field is carried as an Option so that a
reply in which the external service omitted the field (a schema violation
the claims discuss) is representable; the code reads the field without
checking its presence. -/
structure ValidationResponse where
  isValid : Bool
  reason : String
  suggestedLinks : Option (List SuggestedLink)
deriving DecidableEq, Repr

/-- A classified search result: the spread of the suggested link plus the
derived isTrusted, isBlocked and blockReason fields, as built at
src/components/SearchMock.tsx lines 72 to 77. -/
structure SearchResult extends SuggestedLink where
  isTrusted : Bool
  isBlocked : Bool
  blockReason : String
deriving DecidableEq, Repr

/-- The content filter: the body of the map over aiResponse.suggestedLinks
at src/components/SearchMock.tsx lines 57 to 78. The BLOCKED_TLDS and
BLOCKED_SITES constants are imported there from src/constants.ts, which is
not among the sources, so they are taken as parameters: every theorem below
holds for the actual constant lists whatever they contain, and
counterexamples pick explicit lists. -/
def classifyLink (blockedTLDs blockedSites : List String) (role : UserRole)
    (searchQuery : String) (link : SuggestedLink) : SearchResult :=
  let url := jsToLowerCase link.url
  let isBlockedTLD := blockedTLDs.any (fun tld => strEndsWith url tld)
  let isBlockedSite := blockedSites.any (fun site => strIncludes url site)
  let isYoutube := strIncludes url "youtube.com" || strIncludes url "youtu.be"
  let isLearningPath := strIncludes url "youtube.com/learning"
  let isAllowedRole := decide (role = UserRole.STUDENT) || decide (role = UserRole.TEACHER)
  let isExplicitVideoSearch :=
    strIncludes (jsToLowerCase searchQuery) "video" ||
      strIncludes (jsToLowerCase searchQuery) "youtube"
  let allowYoutubeException := isAllowedRole && (isLearningPath || isExplicitVideoSearch)
  let isBlocked := isBlockedTLD || isBlockedSite || (isYoutube && !allowYoutubeException)
  { toSuggestedLink := link
    isTrusted := strIncludes url ".gov" || strIncludes url ".edu" || strIncludes url ".org"
    isBlocked := isBlocked
    blockReason := if isBlocked then "Restricted by focus filter." else "" }

/-- Outcome of awaiting validateAndSearch: either the call threw (network
failure, or JSON.parse threw on a reply that is not valid JSON), or it
returned a parsed reply. -/
inductive OracleOutcome
  | threw
  | replied (resp : ValidationResponse)
deriving DecidableEq, Repr

/-- Calls the search handler makes to its collaborators, in order:
oracleCall records the invocation of validateAndSearch with the query and
role actually passed, historyAdd records the invocation of the onAddHistory
callback with the string actually passed. -/
inductive Event
  | oracleCall (query : String) (role : UserRole)
  | historyAdd (query : String)
deriving DecidableEq, Repr

/-- The component state touched by handleSearch: allResults, visibleCount,
error and showHistoryView. The history ledger itself is owned by the parent
component (the component only receives it as a prop and mutates it through
the onAddHistory callback, recorded in the event trace). -/
structure ComponentState where
  allResults : List SearchResult
  visibleCount : Nat
  error : Option String
  showHistoryView : Bool
deriving DecidableEq, Repr

/-- The search handler, src/components/SearchMock.tsx lines 33 to 86, for a
resolved searchQuery (line 35) and a given outcome of the awaited oracle
call. Mirrors the source control flow: return immediately when the trimmed
query is empty (line 36); otherwise clear error and results and reset the
view counters (lines 39 to 42); on a thrown oracle call set the generic
failure message (line 82); on an invalid reply set the oracle reason and
stop (lines 48 to 52); otherwise call onAddHistory (line 55) and then read
suggestedLinks: if the field is absent the map at line 57 throws and the
catch block sets the generic failure message, else the classified results
are stored (line 80). -/
def handleSearch (blockedTLDs blockedSites : List String) (role : UserRole)
    (searchQuery : String) (oracle : OracleOutcome) (s : ComponentState) :
    ComponentState × List Event :=
  if jsTrim searchQuery = "" then (s, [])
  else
    let s1 : ComponentState :=
      { allResults := [], visibleCount := 6, error := none, showHistoryView := false }
    match oracle with
    | OracleOutcome.threw =>
        ({ s1 with error := some "Search failed. Please try again later." },
         [Event.oracleCall searchQuery role])
    | OracleOutcome.replied resp =>
        if !resp.isValid then
          ({ s1 with error := some resp.reason }, [Event.oracleCall searchQuery role])
        else
          match resp.suggestedLinks with
          | none =>
              ({ s1 with error := some "Search failed. Please try again later." },
               [Event.oracleCall searchQuery role, Event.historyAdd searchQuery])
          | some links =>
              ({ s1 with
                  allResults :=
                    links.map (classifyLink blockedTLDs blockedSites role searchQuery) },
               [Event.oracleCall searchQuery role, Event.historyAdd searchQuery])

/-- Number of onAddHistory invocations recorded in a trace. -/
def historyAddCount : List Event → Nat
  | [] => 0
  | Event.historyAdd _ :: rest => 1 + historyAddCount rest
  | _ :: rest => historyAddCount rest

/-- State of the focus timer component (src Timer component): the remaining
seconds, the two duration inputs, and the stored session length. The lock
state (isActive, isPaused) lives in the parent and is toggled through the
onStartLock, onPauseRequest and onResumeRequest callbacks. -/
structure TimerState where
  timeLeft : Nat
  durationHours : Nat
  durationMinutes : Nat
  initialTotalSeconds : Nat
deriving DecidableEq, Repr

/-- Session start for a given total number of seconds, the body of
startTimer (Timer component lines 23 to 28) after the totalSeconds value
has been computed: when totalSeconds is not positive nothing happens and
the onStartLock callback is not invoked (returned Bool is false); otherwise
initialTotalSeconds and timeLeft are initialized and onStartLock fires. -/
def startSession (totalSeconds : Nat) (s : TimerState) : TimerState × Bool :=
  if totalSeconds ≤ 0 then (s, false)
  else ({ s with initialTotalSeconds := totalSeconds, timeLeft := totalSeconds }, true)

/-- The startTimer handler of the Timer component: totalSeconds is computed
from the hour and minute inputs (line 23) and the session is started. -/
def startTimer (s : TimerState) : TimerState × Bool :=
  startSession (s.durationHours * 3600 + s.durationMinutes * 60) s

/-- One firing of the ticking engine (Timer component lines 32 to 51).
The effect guard at line 34 creates no interval when the timer is
inactive, finished or paused, so such a tick leaves timeLeft unchanged and
fires nothing. Otherwise the interval callback at lines 38 to 46 runs: from
one remaining second (or fewer) the next value is zero and onTimerEnd fires
exactly here (returned Bool is true); otherwise one second is subtracted.
-/
def tickOnce (isActive isPaused : Bool) (timeLeft : Nat) : Nat × Bool :=
  if !isActive ∨ timeLeft ≤ 0 ∨ isPaused then (timeLeft, false)
  else if timeLeft ≤ 1 then (0, true)
  else (timeLeft - 1, false)

/-- Apply n successive one-second ticks to a remaining-seconds value,
returning the final value and how many times the end-of-session signal
(onTimerEnd) fired over the whole sequence. -/
def runTicks (isActive isPaused : Bool) : Nat → Nat → Nat × Nat
  | 0, t => (t, 0)
  | n + 1, t =>
      let step := tickOnce isActive isPaused t
      let rest := runTicks isActive isPaused n step.1
      (rest.1, (if step.2 then 1 else 0) + rest.2)

/-- Claim C1: for every candidate result whose lowercased URL ends with a
blocked TLD suffix or contains a blocked-site substring, the content filter
sets isBlocked to true, for every role and every query text; the video
exception never unblocks such a result, because step 10 of the filter is a
disjunction whose TLD and site clauses do not mention the exception. Stated
for arbitrary blocklist contents, hence for the actual constants. -/
theorem blocklist_overrides_video_exception (blockedTLDs blockedSites : List String)
    (role : UserRole) (searchQuery : String) (link : SuggestedLink)
    (h : blockedTLDs.any (fun tld => strEndsWith (jsToLowerCase link.url) tld) = true
       ∨ blockedSites.any (fun site => strIncludes (jsToLowerCase link.url) site) = true) :
    (classifyLink blockedTLDs blockedSites role searchQuery link).isBlocked = true := by
  rcases h with h | h <;> simp [classifyLink, h]

/-- Witness for C1: a TEACHER searching an explicit video query still gets
isBlocked on a URL ending in a blocked TLD. -/
theorem blocklist_overrides_video_exception_witness :
    ([".xxx"].any (fun tld =>
        strEndsWith (jsToLowerCase "https://bad.xxx") tld) = true
       ∨ ([] : List String).any (fun site =>
        strIncludes (jsToLowerCase "https://bad.xxx") site) = true) ∧
    (classifyLink [".xxx"] [] UserRole.TEACHER "youtube video lectures"
        ⟨"t", "https://bad.xxx", "s", none⟩).isBlocked = true :=
  ⟨Or.inl (by decide),
    blocklist_overrides_video_exception [".xxx"] [] UserRole.TEACHER
      "youtube video lectures" ⟨"t", "https://bad.xxx", "s", none⟩ (Or.inl (by decide))⟩

/-- Counterexample to claim C2 as stated: a URL can contain the substring
youtube.com/learning and at the same time contain a blocked-site substring;
the disjunctive step 10 then blocks it even for a STUDENT, so isBlocked is
not false for every result whose lowercased URL contains
youtube.com/learning. -/
theorem learning_path_block_counterexample :
    strIncludes (jsToLowerCase "https://evil.com/youtube.com/learning")
        "youtube.com/learning" = true ∧
    (classifyLink [] ["evil.com"] UserRole.STUDENT "math"
        ⟨"t", "https://evil.com/youtube.com/learning", "s", none⟩).isBlocked = true := by
  constructor
  · decide
  · decide

/-- Claim C2 as amended: for roles STUDENT and TEACHER, a result whose
lowercased URL contains youtube.com/learning gets isBlocked = false for
every query text, provided the URL neither ends with a blocked TLD suffix
nor contains a blocked-site substring. -/
theorem learning_path_unblocked_outside_blocklists (blockedTLDs blockedSites : List String)
    (role : UserRole) (searchQuery : String) (link : SuggestedLink)
    (hrole : role = UserRole.STUDENT ∨ role = UserRole.TEACHER)
    (hlearn : strIncludes (jsToLowerCase link.url) "youtube.com/learning" = true)
    (htld : blockedTLDs.any (fun tld => strEndsWith (jsToLowerCase link.url) tld) = false)
    (hsite : blockedSites.any (fun site => strIncludes (jsToLowerCase link.url) site) = false) :
    (classifyLink blockedTLDs blockedSites role searchQuery link).isBlocked = false := by
  rcases hrole with h | h <;> subst h <;> simp [classifyLink, hlearn, htld, hsite]

/-- Witness for the amended C2: a STUDENT query that mentions neither video
nor youtube still sees the learning-path result unblocked. -/
theorem learning_path_unblocked_outside_blocklists_witness :
    (UserRole.STUDENT = UserRole.STUDENT ∨ UserRole.STUDENT = UserRole.TEACHER) ∧
    strIncludes (jsToLowerCase "https://www.youtube.com/learning/algebra")
        "youtube.com/learning" = true ∧
    (classifyLink [".xxx"] ["badsite.com"] UserRole.STUDENT "algebra basics"
        ⟨"t", "https://www.youtube.com/learning/algebra", "s", none⟩).isBlocked = false :=
  ⟨Or.inl rfl, by decide,
    learning_path_unblocked_outside_blocklists [".xxx"] ["badsite.com"] UserRole.STUDENT
      "algebra basics" ⟨"t", "https://www.youtube.com/learning/algebra", "s", none⟩
      (Or.inl rfl) (by decide) (by decide) (by decide)⟩

/-- Claim C3: for every role and every result whose lowercased URL is a
YouTube link (contains youtube.com or youtu.be) without the learning path,
if the lowercased query contains neither video nor youtube then the filter
sets isBlocked = true: the video exception needs a learning path or an
explicit video query, so the third clause of step 10 fires. Stated for
arbitrary blocklist contents. -/
theorem youtube_blocked_without_video_intent (blockedTLDs blockedSites : List String)
    (role : UserRole) (searchQuery : String) (link : SuggestedLink)
    (hyt : (strIncludes (jsToLowerCase link.url) "youtube.com" ||
            strIncludes (jsToLowerCase link.url) "youtu.be") = true)
    (hlearn : strIncludes (jsToLowerCase link.url) "youtube.com/learning" = false)
    (hvideo : strIncludes (jsToLowerCase searchQuery) "video" = false)
    (hytq : strIncludes (jsToLowerCase searchQuery) "youtube" = false) :
    (classifyLink blockedTLDs blockedSites role searchQuery link).isBlocked = true := by
  simp [classifyLink, hyt, hlearn, hvideo, hytq]

/-- Witness for C3: a STUDENT searching a plain topic sees a plain YouTube
watch link blocked. -/
theorem youtube_blocked_without_video_intent_witness :
    (strIncludes (jsToLowerCase "https://youtu.be/abc123") "youtube.com" ||
      strIncludes (jsToLowerCase "https://youtu.be/abc123") "youtu.be") = true ∧
    strIncludes (jsToLowerCase "https://youtu.be/abc123") "youtube.com/learning" = false ∧
    strIncludes (jsToLowerCase "algebra basics") "video" = false ∧
    strIncludes (jsToLowerCase "algebra basics") "youtube" = false ∧
    (classifyLink [] [] UserRole.STUDENT "algebra basics"
        ⟨"t", "https://youtu.be/abc123", "s", none⟩).isBlocked = true :=
  ⟨by decide, by decide, by decide, by decide,
    youtube_blocked_without_video_intent [] [] UserRole.STUDENT "algebra basics"
      ⟨"t", "https://youtu.be/abc123", "s", none⟩
      (by decide) (by decide) (by decide) (by decide)⟩

/-- Counterexample to claim C4 as stated: on a reply with isValid true and
suggestedLinks absent, the handler has already cleared the previously
displayed result set (a previously shown result disappears) and has already
invoked onAddHistory with the query before the missing field makes the map
throw; neither the prior result set nor the history is left unchanged. -/
theorem malformed_reply_counterexample :
    handleSearch [] [] UserRole.STUDENT "planets"
        (OracleOutcome.replied ⟨true, "ok", none⟩)
        ⟨[⟨⟨"t", "https://a.org", "s", none⟩, true, false, ""⟩], 6, none, false⟩ =
      (⟨[], 6, some "Search failed. Please try again later.", false⟩,
       [Event.oracleCall "planets" UserRole.STUDENT, Event.historyAdd "planets"]) := by
  decide

/-- Claim C4 as amended: a reply that violates the schema by omitting
suggestedLinks (with isValid true) surfaces the generic failure message
used for oracle faults; the previously displayed result set has already
been cleared at search start, and the query has already been appended to
the history ledger before the malformed field is encountered. -/
theorem malformed_reply_behavior (blockedTLDs blockedSites : List String)
    (role : UserRole) (searchQuery reason : String) (s : ComponentState)
    (h : ¬ jsTrim searchQuery = "") :
    handleSearch blockedTLDs blockedSites role searchQuery
        (OracleOutcome.replied ⟨true, reason, none⟩) s =
      (⟨[], 6, some "Search failed. Please try again later.", false⟩,
       [Event.oracleCall searchQuery role, Event.historyAdd searchQuery]) := by
  simp [handleSearch, h]

/-- Witness for the amended C4. -/
theorem malformed_reply_behavior_witness :
    ¬ jsTrim "planets" = "" ∧
    handleSearch [] [] UserRole.TEACHER "planets"
        (OracleOutcome.replied ⟨true, "ok", none⟩) ⟨[], 6, none, false⟩ =
      (⟨[], 6, some "Search failed. Please try again later.", false⟩,
       [Event.oracleCall "planets" UserRole.TEACHER, Event.historyAdd "planets"]) :=
  ⟨by decide,
    malformed_reply_behavior [] [] UserRole.TEACHER "planets" "ok"
      ⟨[], 6, none, false⟩ (by decide)⟩

/-- Counterexample to claim C5 as stated: with role UNSET and a non-blank
query the handler does invoke the oracle (the trace records the call), so
the search operation does not reject immediately. -/
theorem unset_role_oracle_called_counterexample :
    (handleSearch [] [] UserRole.UNSET "hello"
        (OracleOutcome.replied ⟨false, "not relevant", none⟩)
        ⟨[], 6, none, false⟩).2 =
      [Event.oracleCall "hello" UserRole.UNSET] := by decide

/-- Claim C5 as amended: handleSearch performs no role check at all; with
role UNSET and a query that does not trim to empty, the first collaborator
call is always the oracle invocation, carrying the UNSET role, exactly as
for any operating role. The UNSET guard lives upstream, in the profile
setup that withholds the dashboard until a role is chosen. -/
theorem unset_role_no_guard (blockedTLDs blockedSites : List String)
    (searchQuery : String) (oracle : OracleOutcome) (s : ComponentState)
    (h : ¬ jsTrim searchQuery = "") :
    ((handleSearch blockedTLDs blockedSites UserRole.UNSET searchQuery oracle s).2).head? =
      some (Event.oracleCall searchQuery UserRole.UNSET) := by
  cases oracle with
  | threw => simp [handleSearch, h]
  | replied resp =>
      obtain ⟨v, r, ls⟩ := resp
      cases v <;> cases ls <;> simp [handleSearch, h]

/-- Witness for the amended C5. -/
theorem unset_role_no_guard_witness :
    ¬ jsTrim "hello" = "" ∧
    ((handleSearch [] [] UserRole.UNSET "hello" OracleOutcome.threw
        ⟨[], 6, none, false⟩).2).head? =
      some (Event.oracleCall "hello" UserRole.UNSET) :=
  ⟨by decide,
    unset_role_no_guard [] [] "hello" OracleOutcome.threw ⟨[], 6, none, false⟩ (by decide)⟩

/-- Claim C6: a query that trims to the empty string is rejected locally at
line 36: the handler returns with the component state untouched, no oracle
call and no history mutation (the event trace is empty). This is the local
InvalidInput rejection of the spec. -/
theorem blank_query_noop (blockedTLDs blockedSites : List String) (role : UserRole)
    (searchQuery : String) (oracle : OracleOutcome) (s : ComponentState)
    (h : jsTrim searchQuery = "") :
    handleSearch blockedTLDs blockedSites role searchQuery oracle s = (s, []) := by
  simp [handleSearch, h]

/-- Witness for C6: the whitespace-only query of the spec example. -/
theorem blank_query_noop_witness :
    jsTrim "  " = "" ∧
    handleSearch [] [] UserRole.STUDENT "  " OracleOutcome.threw
        ⟨[], 6, none, false⟩ = (⟨[], 6, none, false⟩, []) :=
  ⟨by decide,
    blank_query_noop [] [] UserRole.STUDENT "  " OracleOutcome.threw
      ⟨[], 6, none, false⟩ (by decide)⟩

/-- Claim C7: on a reply with isValid false the handler surfaces the oracle
reason string as the rejection and records zero onAddHistory calls; on a
validated reply it records exactly one onAddHistory call (whether or not
suggestedLinks is present); a thrown oracle call records zero. -/
theorem history_mutation_discipline (blockedTLDs blockedSites : List String)
    (role : UserRole) (searchQuery reason : String)
    (links : Option (List SuggestedLink)) (s : ComponentState)
    (h : ¬ jsTrim searchQuery = "") :
    (handleSearch blockedTLDs blockedSites role searchQuery
        (OracleOutcome.replied ⟨false, reason, links⟩) s).1.error = some reason ∧
    historyAddCount (handleSearch blockedTLDs blockedSites role searchQuery
        (OracleOutcome.replied ⟨false, reason, links⟩) s).2 = 0 ∧
    historyAddCount (handleSearch blockedTLDs blockedSites role searchQuery
        (OracleOutcome.replied ⟨true, reason, links⟩) s).2 = 1 ∧
    historyAddCount (handleSearch blockedTLDs blockedSites role searchQuery
        OracleOutcome.threw s).2 = 0 := by
  cases links <;> simp [handleSearch, h, historyAddCount]

/-- Witness for C7. -/
theorem history_mutation_discipline_witness :
    ¬ jsTrim "cats" = "" ∧
    ((handleSearch [] [] UserRole.STUDENT "cats"
        (OracleOutcome.replied ⟨false, "off topic", some []⟩)
        ⟨[], 6, none, false⟩).1.error = some "off topic" ∧
     historyAddCount (handleSearch [] [] UserRole.STUDENT "cats"
        (OracleOutcome.replied ⟨false, "off topic", some []⟩)
        ⟨[], 6, none, false⟩).2 = 0 ∧
     historyAddCount (handleSearch [] [] UserRole.STUDENT "cats"
        (OracleOutcome.replied ⟨true, "off topic", some []⟩)
        ⟨[], 6, none, false⟩).2 = 1 ∧
     historyAddCount (handleSearch [] [] UserRole.STUDENT "cats"
        OracleOutcome.threw ⟨[], 6, none, false⟩).2 = 0) :=
  ⟨by decide,
    history_mutation_discipline [] [] UserRole.STUDENT "cats" "off topic"
      (some []) ⟨[], 6, none, false⟩ (by decide)⟩

/-- Claim C8: starting a session with totalSeconds = 5 initializes the
countdown at 5 and fires the lock signal; after four ticks one second
remains and the end-of-session signal has not fired (the Ended transition
has not happened yet); the fifth tick reaches zero remaining seconds with
the signal fired exactly once; further ticks change nothing, so the signal
fires exactly once over the whole sequence. -/
theorem five_second_session_lifecycle :
    (startSession 5 ⟨0, 0, 25, 0⟩).2 = true ∧
    (startSession 5 ⟨0, 0, 25, 0⟩).1.timeLeft = 5 ∧
    runTicks true false 4 5 = (1, 0) ∧
    runTicks true false 5 5 = (0, 1) ∧
    runTicks true false 8 5 = (0, 1) := by decide

/-- Claim C9: when the configured duration comes to zero total seconds,
startTimer is a no-op: the component state is unchanged, no countdown
state is initialized, and onStartLock is not invoked, so the session stays
Idle. -/
theorem zero_duration_start_noop (s : TimerState)
    (h : s.durationHours * 3600 + s.durationMinutes * 60 ≤ 0) :
    startTimer s = (s, false) := by
  simp [startTimer, startSession, h]

/-- Witness for C9: zero hours and zero minutes. -/
theorem zero_duration_start_noop_witness :
    (⟨0, 0, 0, 0⟩ : TimerState).durationHours * 3600 +
        (⟨0, 0, 0, 0⟩ : TimerState).durationMinutes * 60 ≤ 0 ∧
    startTimer ⟨0, 0, 0, 0⟩ = (⟨0, 0, 0, 0⟩, false) :=
  ⟨by decide, zero_duration_start_noop ⟨0, 0, 0, 0⟩ (by decide)⟩

/-- Claim C10: for a query that does not trim to empty, the untrimmed query
string is exactly what the oracle receives and exactly what any history
append carries: the trace is either the single oracle call with the raw
query, or that call followed by one onAddHistory call with the same raw
query. Trimming is used only for the emptiness test at line 36. -/
theorem raw_query_used_throughout (blockedTLDs blockedSites : List String)
    (role : UserRole) (searchQuery : String) (oracle : OracleOutcome)
    (s : ComponentState) (h : ¬ jsTrim searchQuery = "") :
    (handleSearch blockedTLDs blockedSites role searchQuery oracle s).2 =
        [Event.oracleCall searchQuery role] ∨
    (handleSearch blockedTLDs blockedSites role searchQuery oracle s).2 =
        [Event.oracleCall searchQuery role, Event.historyAdd searchQuery] := by
  cases oracle with
  | threw => left; simp [handleSearch, h]
  | replied resp =>
      obtain ⟨v, r, ls⟩ := resp
      cases v with
      | false => left; simp [handleSearch, h]
      | true => cases ls <;> (right; simp [handleSearch, h])

/-- Witness for C10: a query with surrounding whitespace is transmitted and
appended untrimmed. -/
theorem raw_query_used_throughout_witness :
    ¬ jsTrim " planets " = "" ∧
    ((handleSearch [] [] UserRole.STUDENT " planets "
        (OracleOutcome.replied ⟨true, "ok", some []⟩) ⟨[], 6, none, false⟩).2 =
        [Event.oracleCall " planets " UserRole.STUDENT] ∨
     (handleSearch [] [] UserRole.STUDENT " planets "
        (OracleOutcome.replied ⟨true, "ok", some []⟩) ⟨[], 6, none, false⟩).2 =
        [Event.oracleCall " planets " UserRole.STUDENT,
         Event.historyAdd " planets "]) :=
  ⟨by decide,
    raw_query_used_throughout [] [] UserRole.STUDENT " planets "
      (OracleOutcome.replied ⟨true, "ok", some []⟩) ⟨[], 6, none, false⟩ (by decide)⟩

end FocusGuard
